import Mathlib

/-!
Formal model of the kuaishou-video-scraper extraction pipeline.

The definitions below are shallow embeddings of the Python sources
(src/parse_kuaishou_api.py, src/gui_app.py, src/extract_video_id.py):
pure parsing and field-mapping functions become Lean functions over an
inductive JSON value type; the per-record fetch/retry loops become
fuel-indexed state-passing functions driven by an abstract stream of
per-attempt network outcomes; Python exceptions that a function catches
are modeled by Option/abstract outcome constructors.
-/

/-- JSON values as decoded by Python json.loads.  Numbers are modeled as
integers: every identifier-relevant value handled by the pipeline is an
integer or a string, and a Python float never renders as a pure digit
string, so the digit tests below are unaffected by this choice. -/
inductive Json where
  | null
  | bool (b : Bool)
  | num (n : Int)
  | str (s : String)
  | arr (elems : List Json)
  | obj (fields : List (String × Json))

/-- The character list of a string. -/
def strChars (s : String) : List Char := s.data

/-- Python truthiness of a decoded JSON value (empty containers, empty
strings, zero, None and False are falsy). -/
def pyTruthy : Json → Bool
  | .null => false
  | .bool b => b
  | .num n => n != 0
  | .str s => !(s.data.isEmpty)
  | .arr xs => !(xs.isEmpty)
  | .obj fs => !(fs.isEmpty)

/-- Python str() on a decoded JSON value.  Container renderings are elided
to their delimiters: a rendered list or dict always starts with a bracket
or brace character, which already decides every digit test performed on
it, and no claim inspects the full rendering. -/
def pyStr : Json → String
  | .null => "None"
  | .bool true => "True"
  | .bool false => "False"
  | .num n => toString n
  | .str s => s
  | .arr _ => "[...]"
  | .obj _ => "\x7b...\x7d"

/-- Python str.isdigit, restricted to ASCII digits (the identifiers the
pipeline manipulates are ASCII). -/
def pyIsdigit (s : String) : Bool := !(s.data.isEmpty) && s.data.all Char.isDigit

/-- The test `value_str.isdigit() and len(value_str) >= 15` from
extract_numeric_photo_id (src/parse_kuaishou_api.py line 46). -/
def numeric15 (s : String) : Bool := pyIsdigit s && decide (15 ≤ s.data.length)

/-- isinstance(value, (dict, list)). -/
def isContainer : Json → Bool
  | .arr _ => true
  | .obj _ => true
  | _ => false

/-- Python dict.get(key, default) on a decoded JSON object, given as its
field list (json.loads produces dicts with distinct keys, so first match
equals dict lookup). -/
def pyGetD (fields : List (String × Json)) (k : String) (d : Json) : Json :=
  match fields.find? (fun kv => kv.1 == k) with
  | some kv => kv.2
  | none => d

/-- The recursive helper find_numeric_photo_ids of extract_numeric_photo_id
(src/parse_kuaishou_api.py lines 40-54): walk the decoded document in
depth-first insertion order collecting, under every dict key equal to
a truthy-valued photoId, the stringified value when it is purely numeric
with at least 15 digits; recurse into container values of all other keys
and into container list items.  Note the source's elif: it does not
descend into a (truthy) container stored under a photoId key. -/
def find_numeric_photo_ids : Json → List String
  | .obj [] => []
  | .obj ((k, v) :: rest) =>
      (if k == "photoId" && pyTruthy v then
        (if numeric15 (pyStr v) then [pyStr v] else [])
      else if isContainer v then find_numeric_photo_ids v else [])
      ++ find_numeric_photo_ids (.obj rest)
  | .arr [] => []
  | .arr (v :: rest) =>
      (if isContainer v then find_numeric_photo_ids v else [])
      ++ find_numeric_photo_ids (.arr rest)
  | .null => []
  | .bool _ => []
  | .num _ => []
  | .str _ => []

/-- extract_numeric_photo_id (src/parse_kuaishou_api.py lines 35-71): first
numeric id found by the document search, else the photo subtree's own
photoId (stringified when truthy, empty string otherwise).  The photo
argument is the field list of the photo dict (its callers have already
established it is a dict). -/
def extract_numeric_photo_id (photo : List (String × Json)) (full_data : Json) : String :=
  match find_numeric_photo_ids full_data with
  | v :: _ => v
  | [] =>
    let photo_id := pyGetD photo "photoId" (.str "")
    if pyTruthy photo_id && pyIsdigit (pyStr photo_id) then pyStr photo_id
    else if pyTruthy photo_id then pyStr photo_id
    else ""

/-- All key-value pairs of a decoded document, in document order
(depth-first, insertion order).  This is the claim's notion of "the
document contains a key-value pair": it descends into every container,
including values stored under a photoId key. -/
def jsonPairs : Json → List (String × Json)
  | .obj [] => []
  | .obj ((k, v) :: rest) => (k, v) :: (jsonPairs v ++ jsonPairs (.obj rest))
  | .arr [] => []
  | .arr (v :: rest) => jsonPairs v ++ jsonPairs (.arr rest)
  | .null => []
  | .bool _ => []
  | .num _ => []
  | .str _ => []

/-- The key-value pairs visited by the source's traversal: as jsonPairs,
except that the traversal does not descend into a truthy container stored
under a photoId key (the source's elif). -/
def jsonPairsR : Json → List (String × Json)
  | .obj [] => []
  | .obj ((k, v) :: rest) =>
      (k, v) :: ((if k == "photoId" && pyTruthy v then [] else jsonPairsR v)
        ++ jsonPairsR (.obj rest))
  | .arr [] => []
  | .arr (v :: rest) => jsonPairsR v ++ jsonPairsR (.arr rest)
  | .null => []
  | .bool _ => []
  | .num _ => []
  | .str _ => []

/-- Selector for the claim's qualifying pairs: key photoId, stringified
value purely numeric with at least 15 digits. -/
def claimSel (kv : String × Json) : Option String :=
  if kv.1 == "photoId" && numeric15 (pyStr kv.2) then some (pyStr kv.2) else none

/-- Selector matching the source's qualification test (which additionally
requires the value to be truthy). -/
def qualifySel (kv : String × Json) : Option String :=
  if kv.1 == "photoId" && pyTruthy kv.2 && numeric15 (pyStr kv.2) then some (pyStr kv.2)
  else none

/-! ## Embedded-state subtree locator and field mappers
(extract_video_info in src/parse_kuaishou_api.py lines 74-126 and
src/gui_app.py lines 776-812). -/

/-- Python membership test key in dict, on a field list. -/
def jsonHasKey (fields : List (String × Json)) (k : String) : Bool :=
  fields.any (fun kv => kv.1 == k)

/-- The structural test of the locator loop:
isinstance(value, dict) and photo in value and counts in value. -/
def subtreeMatch : Json → Bool
  | .obj fields => jsonHasKey fields "photo" && jsonHasKey fields "counts"
  | _ => false

/-- The for-loop shared by both extract_video_info functions: scan the
top-level key/value pairs in order; on the first value that is a dict
containing photo and counts, build the info record from it and return
(a failure inside the build corresponds to the exception that aborts the
loop and is caught by the surrounding except, yielding None). -/
def photoCountsLoop (build : Json → Option α) : List (String × Json) → Option α
  | [] => none
  | (_, v) :: rest => if subtreeMatch v then build v else photoCountsLoop build rest

/-- The info dict literal of the GUI extractor (src/gui_app.py lines
794-809), given the field lists of the photo and counts dicts.  The
发布时间 entry keeps the raw millisecond timestamp value: the calendar
rendering performed by the source is not modeled, and no claim inspects
it.  Note this version has no 作品ID entry. -/
def guiInfoFields (pfs cfs : List (String × Json)) : List (String × Json) :=
  [("粉丝数量", pyGetD cfs "fanCount" (.num 0)),
   ("收藏数量", pyGetD cfs "collectionCount" (.num 0)),
   ("作品数量", pyGetD cfs "photoCount" (.num 0)),
   ("作者ID", pyGetD pfs "userId" (.str "")),
   ("作者名字", pyGetD pfs "userName" (.str "")),
   ("点赞数量", pyGetD pfs "likeCount" (.num 0)),
   ("评论数量", pyGetD pfs "commentCount" (.num 0)),
   ("播放量", pyGetD pfs "viewCount" (.num 0)),
   ("分享数量", pyGetD pfs "shareCount" (.num 0)),
   ("作品文案", pyGetD pfs "caption" (.str "")),
   ("视频时长", pyGetD pfs "duration" (.num 0)),
   ("视频宽度", pyGetD pfs "width" (.num 0)),
   ("视频高度", pyGetD pfs "height" (.num 0)),
   ("发布时间", pyGetD pfs "timestamp" (.num 0))]

/-- Build step of the GUI extractor for a matched subtree: take the photo
and counts sub-dicts (default empty); if either is not a dict the
subsequent .get calls raise, which the surrounding except turns into
None. -/
def buildInfoGui (value : Json) : Option (List (String × Json)) :=
  match value with
  | .obj vfs =>
    match pyGetD vfs "counts" (.obj []), pyGetD vfs "photo" (.obj []) with
    | .obj cfs, .obj pfs => some (guiInfoFields pfs cfs)
    | _, _ => none
  | _ => none

/-- The info dict literal of the standalone extractor
(src/parse_kuaishou_api.py lines 102-118): as the GUI one, plus the 作品ID
entry recovered by extract_numeric_photo_id. -/
def parseInfoFields (pfs cfs : List (String × Json)) (data : Json) : List (String × Json) :=
  [("粉丝数量", pyGetD cfs "fanCount" (.num 0)),
   ("收藏数量", pyGetD cfs "collectionCount" (.num 0)),
   ("作品数量", pyGetD cfs "photoCount" (.num 0)),
   ("作者ID", pyGetD pfs "userId" (.str "")),
   ("作者名字", pyGetD pfs "userName" (.str "")),
   ("点赞数量", pyGetD pfs "likeCount" (.num 0)),
   ("评论数量", pyGetD pfs "commentCount" (.num 0)),
   ("播放量", pyGetD pfs "viewCount" (.num 0)),
   ("分享数量", pyGetD pfs "shareCount" (.num 0)),
   ("作品文案", pyGetD pfs "caption" (.str "")),
   ("作品ID", .str (extract_numeric_photo_id pfs data)),
   ("视频时长", pyGetD pfs "duration" (.num 0)),
   ("视频宽度", pyGetD pfs "width" (.num 0)),
   ("视频高度", pyGetD pfs "height" (.num 0)),
   ("发布时间", pyGetD pfs "timestamp" (.num 0))]

/-- Build step of the standalone extractor for a matched subtree. -/
def buildInfoParse (data : Json) (value : Json) : Option (List (String × Json)) :=
  match value with
  | .obj vfs =>
    match pyGetD vfs "counts" (.obj []), pyGetD vfs "photo" (.obj []) with
    | .obj cfs, .obj pfs => some (parseInfoFields pfs cfs data)
    | _, _ => none
  | _ => none

/-- extract_video_info (src/parse_kuaishou_api.py lines 74-126).  A
non-dict argument makes data.items() raise, which the except turns into
None. -/
def extract_video_info (data : Json) : Option (List (String × Json)) :=
  match data with
  | .obj fields => photoCountsLoop (buildInfoParse data) fields
  | _ => none

/-- WorkerThread.extract_video_info (src/gui_app.py lines 776-812). -/
def gui_extract_video_info (data : Json) : Option (List (String × Json)) :=
  match data with
  | .obj fields => photoCountsLoop buildInfoGui fields
  | _ => none

/-! ## Embedded-JSON extraction
(extract_json_from_html in src/parse_kuaishou_api.py lines 8-32 and
src/gui_app.py lines 764-774; both bodies are identical up to logging).
The regex window\.INIT_STATE\s*=\s*(\x7b[\s\S]*?\x7d)\s*</script> is
implemented directly as a leftmost-first, lazy-body scanner; json.loads
is an abstract total parser parameter (None models a parse failure or a
raised exception, both of which the source catches). -/

/-- Python regex \s, ASCII range. -/
def pyIsSpace (c : Char) : Bool :=
  c == ' ' || c == '\t' || c == '\n' || c == '\x0d' || c == '\x0c' || c == '\x0b'

/-- Match a literal pattern at the head of the input, returning the rest. -/
def matchPre : List Char → List Char → Option (List Char)
  | [], s => some s
  | _ :: _, [] => none
  | p :: ps, c :: cs => if p = c then matchPre ps cs else none

/-- Does the pattern occur at the head of the input? -/
def startsList (pat s : List Char) : Bool := (matchPre pat s).isSome

/-- Python substring containment (needle in haystack). -/
def hasSub (pat : List Char) : List Char → Bool
  | [] => startsList pat []
  | c :: rest => startsList pat (c :: rest) || hasSub pat rest

/-- Drop leading regex whitespace. -/
def skipWs (s : List Char) : List Char := s.dropWhile pyIsSpace

/-- After a candidate closing brace: \s* followed by the literal
</script>. -/
def closeOk (rest : List Char) : Bool := startsList (strChars "</script>") (skipWs rest)

/-- The lazy body [\s\S]*? between the braces: the shortest prefix whose
next character is a closing brace followed by \s*</script>.  Returns the
body (accumulated in reverse). -/
def lazyBrace : List Char → List Char → Option (List Char)
  | [], _ => none
  | c :: rest, acc =>
      if c = '\x7d' && closeOk rest then some acc.reverse
      else lazyBrace rest (c :: acc)

/-- Attempt the whole INIT_STATE pattern at the current position,
returning capture group 1 (the braced object literal). -/
def initStateAt (s : List Char) : Option String :=
  match matchPre (strChars "window.INIT_STATE") s with
  | none => none
  | some r1 =>
    match skipWs r1 with
    | '=' :: r3 =>
      (match skipWs r3 with
        | '\x7b' :: r5 =>
          match lazyBrace r5 [] with
          | some body => some (String.mk ('\x7b' :: (body ++ ['\x7d'])))
          | none => none
        | _ => none)
    | _ => none

/-- re.search: try the pattern at each position, leftmost first. -/
def searchInitState : List Char → Option String
  | [] => none
  | c :: rest =>
    match initStateAt (c :: rest) with
    | some g => some g
    | none => searchInitState rest

/-- extract_json_from_html: locate the INIT_STATE object literal and hand
it to json.loads; marker absence, parse failure, and a raised parse
exception all yield None. -/
def extract_json_from_html (loads : String → Option Json) (html : String) : Option Json :=
  match searchInitState (strChars html) with
  | some g => loads g
  | none => none

/-! ## The raw-HTML numeric photoId scan
(re.findall of the pattern quoted-photoId colon \s* optional-quote
fifteen-or-more-digits optional-quote, src/gui_app.py lines 267 and 443)
and the 作品ID override it feeds (lines 279-287 and 455-463). -/

/-- Attempt one findall match at the current position; on success return
the captured digit group and the rest of the input after the match. -/
def photoIdAt (s : List Char) : Option (String × List Char) :=
  match matchPre (strChars "\"photoId\":") s with
  | none => none
  | some r1 =>
    let r2 := skipWs r1
    let r3 := match r2 with
      | '"' :: t => t
      | _ => r2
    let ds := r3.takeWhile Char.isDigit
    if 15 ≤ ds.length then
      let r4 := r3.drop ds.length
      let r5 := match r4 with
        | '"' :: t => t
        | _ => r4
      some (String.mk ds, r5)
    else none

/-- re.findall scanning loop: non-overlapping matches, left to right.  The
fuel is an upper bound on the number of scan steps; every step consumes at
least one character, so an initial fuel of the input length suffices. -/
def findallPhotoId : Nat → List Char → List String
  | 0, _ => []
  | _ + 1, [] => []
  | fuel + 1, c :: rest =>
    match photoIdAt (c :: rest) with
    | some gr => gr.1 :: findallPhotoId fuel gr.2
    | none => findallPhotoId fuel rest

/-- numeric_photo_ids = re.findall(pattern, html). -/
def reFindallNumericPhotoId (html : String) : List String :=
  findallPhotoId (strChars html).length (strChars html)

/-- The recorded 作品ID of a successfully mapped record (src/gui_app.py
lines 279-287 and 455-463): str(info.get('作品ID', '')), overridden by the
first raw-HTML regex match when one exists. -/
def recordPhotoId (html : String) (info : List (String × Json)) : String :=
  match reFindallNumericPhotoId html with
  | m :: _ => m
  | [] => pyStr (pyGetD info "作品ID" (.str ""))

/-! ## The per-record fetch/retry loops
(WorkerThread.fetch_video_info_from_url, src/gui_app.py lines 197-357, and
WorkerThread.fetch_video_info_with_id, lines 359-625).  A record's network
interaction is abstracted as a stream of per-attempt outcomes; the
cooperative-cancellation flag is a predicate on the attempt index (the
source reads self.is_running at the loop head and again immediately
after; both reads are modeled as one check per iteration). -/

/-- Outcome of one network attempt: a response with its HTTP status and
body, an asyncio.TimeoutError, or any other exception caught by the
generic except clause. -/
inductive AttemptOutcome where
  | httpResp (status : Nat) (body : String)
  | timeout
  | netError
deriving DecidableEq

/-- The per-record DataFrame cells the loops write: 解析状态, 错误原因 and
作品ID (none models the initial None cell). -/
structure RecState where
  status : String
  reason : String
  workId : Option String
deriving DecidableEq

/-- Final observation of one record's loop: its row state, the number of
attempts begun, and the number of inter-attempt pauses slept. -/
structure RunResult where
  row : RecState
  attempts : Nat
  sleeps : Nat
deriving DecidableEq

def STATUS_PENDING : String := "待处理"

def STATUS_OK : String := "成功"

def STATUS_FAIL : String := "失败"

/-- The single uniform failure reason written on every failure path. -/
def FAIL_REASON : String := "找不到视频，已被删除或下架"

/-- The fixed pause asyncio.sleep(0.5) between attempts, in
milliseconds. -/
def RETRY_PAUSE_MS : Nat := 500

/-- What one attempt does to the record: return terminally with a final
row state, or fall into the retry logic carrying the row state as the
attempt left it. -/
inductive StepVerdict where
  | done (st : RecState)
  | retryWith (st : RecState)
deriving DecidableEq

/-- One attempt of fetch_video_info_from_url (lines 209-357): a non-200
response, a missing/unparsable INIT_STATE payload and a missing
photo/counts subtree each terminate the record as failed immediately; a
successful parse terminates it as successful (with the 作品ID override
from the raw HTML); only timeouts and other exceptions reach the retry
logic. -/
def stepFromUrl (loads : String → Option Json) (st : RecState) : AttemptOutcome → StepVerdict
  | .httpResp code html =>
    if code ≠ 200 then .done ⟨STATUS_FAIL, FAIL_REASON, st.workId⟩
    else
      match extract_json_from_html loads html with
      | none => .done ⟨STATUS_FAIL, FAIL_REASON, st.workId⟩
      | some data =>
        match gui_extract_video_info data with
        | none => .done ⟨STATUS_FAIL, FAIL_REASON, st.workId⟩
        | some info => .done ⟨STATUS_OK, st.reason, some (recordPhotoId html info)⟩
  | .timeout => .retryWith st
  | .netError => .retryWith st

/-- One attempt of fetch_video_info_with_id (lines 369-625): a non-200
response and every parse failure write the failed row state but fall
through (no return) into the retry logic; only a fully successful parse
returns.  Timeouts and other exceptions retry without touching the
row. -/
def stepWithId (loads : String → Option Json) (st : RecState) : AttemptOutcome → StepVerdict
  | .httpResp code html =>
    if code ≠ 200 then .retryWith ⟨STATUS_FAIL, FAIL_REASON, st.workId⟩
    else
      match extract_json_from_html loads html with
      | none => .retryWith ⟨STATUS_FAIL, FAIL_REASON, st.workId⟩
      | some data =>
        match gui_extract_video_info data with
        | none => .retryWith ⟨STATUS_FAIL, FAIL_REASON, st.workId⟩
        | some info => .done ⟨STATUS_OK, st.reason, some (recordPhotoId html info)⟩
  | .timeout => .retryWith st
  | .netError => .retryWith st

/-- The while loop shared by both fetchers: while retry_count < max and
is_running, run one attempt; a terminal attempt returns; a retryable one
increments retry_count and either sleeps 0.5s and continues, or — when the
budget is exhausted — writes the failed row state and returns.  The fuel
argument is max_retries minus the current retry_count; falling out of the
loop (cancellation, or fuel 0) returns with the row as it stands.  The
attempt index i doubles as the retry_count, so on every exit the number
of pauses slept equals the number of completed retryable attempts. -/
def retryLoop (step : RecState → AttemptOutcome → StepVerdict) (running : Nat → Bool)
    (f : Nat → AttemptOutcome) : RecState → Nat → Nat → RunResult
  | st, i, 0 => ⟨st, i, i⟩
  | st, i, fuel + 1 =>
    if running i then
      match step st (f i) with
      | .done st2 => ⟨st2, i + 1, i⟩
      | .retryWith st2 =>
        if fuel = 0 then ⟨⟨STATUS_FAIL, FAIL_REASON, st2.workId⟩, i + 1, i⟩
        else retryLoop step running f st2 (i + 1) fuel
    else ⟨st, i, i⟩

/-- fetch_video_info_from_url on a freshly initialized row
(解析状态 = 待处理, 错误原因 empty, 作品ID = None), max_retries = 3. -/
def fetch_video_info_from_url (loads : String → Option Json) (running : Nat → Bool)
    (f : Nat → AttemptOutcome) : RunResult :=
  retryLoop (stepFromUrl loads) running f ⟨STATUS_PENDING, "", none⟩ 0 3

/-- fetch_video_info_with_id on a freshly initialized row,
max_retries = 3. -/
def fetch_video_info_with_id (loads : String → Option Json) (running : Nat → Bool)
    (f : Nat → AttemptOutcome) : RunResult :=
  retryLoop (stepWithId loads) running f ⟨STATUS_PENDING, "", none⟩ 0 3

/-- process_single_url_async (src/gui_app.py lines 188-195): under the
semaphore, return immediately if the cancellation flag is down, otherwise
run the URL fetcher.  A task that returns early leaves the row exactly as
initialized. -/
def process_single_url_async (loads : String → Option Json) (running : Nat → Bool)
    (f : Nat → AttemptOutcome) : RunResult :=
  if running 0 then fetch_video_info_from_url loads running f
  else ⟨⟨STATUS_PENDING, "", none⟩, 0, 0⟩

/-! ## URL handling: the identifier resolver
(extract_video_id in src/extract_video_id.py lines 8-56, and the
post-redirect selection of WorkerThread.extract_single_video_id_async in
src/gui_app.py lines 702-756).  urlparse/parse_qs are modeled directly;
the network redirect of the short-link branch is an abstract parameter
returning the final URL (None models a raised transport error). -/

/-- Split at the first occurrence of a character: Python split(c, 1) when
it succeeds. -/
def splitFirstChar (sep : Char) : List Char → Option (List Char × List Char)
  | [] => none
  | c :: rest =>
    if c = sep then some ([], rest)
    else
      match splitFirstChar sep rest with
      | some pr => some (c :: pr.1, pr.2)
      | none => none

/-- Full split on a character: Python split(c). -/
def splitAllChar (sep : Char) : List Char → List (List Char)
  | [] => [[]]
  | c :: rest =>
    if c = sep then [] :: splitAllChar sep rest
    else
      match splitAllChar sep rest with
      | t :: ts => (c :: t) :: ts
      | [] => [[c]]

/-- Value of a hex digit. -/
def hexVal (c : Char) : Option Nat :=
  if '0' ≤ c ∧ c ≤ '9' then some (c.toNat - '0'.toNat)
  else if 'a' ≤ c ∧ c ≤ 'f' then some (c.toNat - 'a'.toNat + 10)
  else if 'A' ≤ c ∧ c ≤ 'F' then some (c.toNat - 'A'.toNat + 10)
  else none

/-- urllib unquote_plus on the field texts the resolver sees: plus signs
become spaces and valid percent-escapes are decoded bytewise (the
identifiers involved are ASCII, so bytewise decoding agrees with the
source's UTF-8 decoding). -/
def unquotePlus : List Char → List Char
  | [] => []
  | '+' :: rest => ' ' :: unquotePlus rest
  | '%' :: a :: b :: rest =>
    (match hexVal a, hexVal b with
      | some ha, some hb => Char.ofNat (16 * ha + hb) :: unquotePlus rest
      | _, _ => '%' :: unquotePlus (a :: b :: rest))
  | c :: rest => c :: unquotePlus rest

/-- urlparse(url).query: the text after the first question mark of the
part before the first hash. -/
def urlQuery (u : String) : List Char :=
  let s := strChars u
  let pre := match splitFirstChar '#' s with
    | some pr => pr.1
    | none => s
  match splitFirstChar '?' pre with
  | some pr => pr.2
  | none => []

/-- parse_qs as the resolver uses it: the name/value pairs of the query in
order, skipping fields without an equals sign and fields with an empty
value (keep_blank_values is left at False). -/
def parse_qs (q : List Char) : List (String × String) :=
  (splitAllChar '&' q).filterMap fun field =>
    if field.isEmpty then none
    else
      match splitFirstChar '=' field with
      | none => none
      | some nv =>
        if nv.2.isEmpty then none
        else some (String.mk (unquotePlus nv.1), String.mk (unquotePlus nv.2))

/-- params[k][0]: the first value recorded for a query parameter. -/
def firstParam (ps : List (String × String)) (k : String) : Option String :=
  match ps.find? (fun p => p.1 == k) with
  | some p => some p.2
  | none => none

/-- re.search of pat followed by one-or-more slug characters
[a-zA-Z0-9_-], over the whole subject string, returning the captured
maximal slug run of the leftmost match. -/
def isSlugChar (c : Char) : Bool :=
  ('a' ≤ c && c ≤ 'z') || ('A' ≤ c && c ≤ 'Z') || ('0' ≤ c && c ≤ '9') || c == '_' || c == '-'

def searchSlug (pat : List Char) : List Char → Option String
  | [] => none
  | c :: rest =>
    match matchPre pat (c :: rest) with
    | some after =>
      (match after.takeWhile isSlugChar with
        | [] => searchSlug pat rest
        | ds => some (String.mk ds))
    | none => searchSlug pat rest

/-- Python str.strip() (ASCII whitespace). -/
def pyStrip (s : List Char) : List Char :=
  ((s.dropWhile pyIsSpace).reverse.dropWhile pyIsSpace).reverse

def pyStripStr (s : String) : String := String.mk (pyStrip (strChars s))

/-- Step 1 of the post-redirect selection (src/gui_app.py lines 712-718):
the photoId query parameter when it is not purely numeric and longer than
5 characters. -/
def resolveStepSlugParam (final_url : String) : Option String :=
  match firstParam (parse_qs (urlQuery final_url)) "photoId" with
  | some pid => if !(pyIsdigit pid) && decide (5 < pid.length) then some pid else none
  | none => none

/-- Step 2 (lines 721-727): a non-numeric identifier after /photo/ in the
final URL. -/
def resolveStepPhotoPath (final_url : String) : Option String :=
  match searchSlug (strChars "/photo/") (strChars final_url) with
  | some pathId => if !(pyIsdigit pathId) then some pathId else none
  | none => none

/-- Step 3 (lines 730-735): the identifier after /short-video/ in the
final URL. -/
def resolveStepShortVideo (final_url : String) : Option String :=
  searchSlug (strChars "/short-video/") (strChars final_url)

/-- Step 4 (lines 738-743): the photoId query parameter when purely
numeric. -/
def resolveStepNumericParam (final_url : String) : Option String :=
  match firstParam (parse_qs (urlQuery final_url)) "photoId" with
  | some pid => if pyIsdigit pid then some pid else none
  | none => none

/-- Step 5 (lines 746-751): the shareObjectId query parameter when purely
numeric. -/
def resolveStepShareObject (final_url : String) : Option String :=
  match firstParam (parse_qs (urlQuery final_url)) "shareObjectId" with
  | some sid => if pyIsdigit sid then some sid else none
  | none => none

/-- The post-redirect identifier selection of
extract_single_video_id_async (src/gui_app.py lines 702-756), as a
function of the final URL reached after redirect resolution: the source's
five sequential checks in order, None when all fail. -/
def extract_single_video_id_final (final_url : String) : Option String :=
  match resolveStepSlugParam final_url with
  | some v => some v
  | none =>
    match resolveStepPhotoPath final_url with
    | some v => some v
    | none =>
      match resolveStepShortVideo final_url with
      | some v => some v
      | none =>
        match resolveStepNumericParam final_url with
        | some v => some v
        | none => resolveStepShareObject final_url

/-- Modelled from the spec wording of the claim under test: the selection
order the claim states, namely slug-form photoId parameter, then the
canonical /short-video/ path pattern, then a purely numeric shareObjectId
parameter, then failure.  Used only to compare the claim's predicted
output with the source's. -/
def claimResolvePriority (final_url : String) : Option String :=
  match resolveStepSlugParam final_url with
  | some v => some v
  | none =>
    match resolveStepShortVideo final_url with
    | some v => some v
    | none => resolveStepShareObject final_url

/-- extract_video_id (src/extract_video_id.py lines 8-56).  The net
parameter models following the short link's redirects and returns the
final URL (None models a raised transport error or timeout, caught by the
source's except).  An empty url is falsy and returns None at the guard. -/
def extract_video_id (net : String → Option String) (url : String) : Option String :=
  if url = "" then none
  else
    let u := pyStripStr url
    if hasSub (strChars "www.kuaishou.com/short-video/") (strChars u) then
      searchSlug (strChars "/short-video/") (strChars u)
    else if hasSub (strChars "v.kuaishou.com") (strChars u) then
      match net u with
      | none => none
      | some finalUrl =>
        match firstParam (parse_qs (urlQuery finalUrl)) "photoId" with
        | some pid => some pid
        | none => searchSlug (strChars "/short-video/") (strChars finalUrl)
    else none

/-! ## Concrete inputs used by counterexamples and witnesses -/

/-- The C1 counterexample document: its only qualifying photoId pair sits
inside a dict that is itself the value of a photoId key, where the
source's traversal does not look. -/
def c1doc : Json := .obj [("photoId", .obj [("photoId", .str "123456789012345")])]

/-- A sibling-structure document for the amended C1 statement: the
numeric identifier appears only outside the matched photo subtree. -/
def c1docSibling : Json :=
  .obj [("sibling", .obj [("photoId", .str "999998888877777")]), ("other", .str "x")]

/-- The C7 counterexample URL: no slug photoId, no path pattern, but both
a purely numeric photoId and a purely numeric shareObjectId. -/
def c7url : String := "https://a.kuaishou.com/x?photoId=123456789012345&shareObjectId=555"

/-- An HTML body whose embedded INIT_STATE object parses to a payload
with no photoId anywhere, while the raw text carries a 15-digit quoted
photoId outside the embedded object. -/
def c10html : String :=
  "window.INIT_STATE = \x7b\x7d</script> \"photoId\": \"111112222233333\""

/-- The parsed payload the abstract parser returns for c10html. -/
def c10data : Json := .obj [("k", .obj [("photo", .obj []), ("counts", .obj [])])]

/-! ## Helper lemmas -/

/-- A non-container value contributes no pairs to the traversal. -/
theorem jsonPairsR_eq_nil_of_not_container (v : Json) (h : isContainer v = false) :
    jsonPairsR v = [] := by
  cases v <;> simp_all [isContainer, jsonPairsR]

/-- A value that the claim's qualification test accepts is truthy (its
rendering is a nonempty digit string, which rules out every falsy
value). -/
theorem pyTruthy_of_numeric15 (v : Json) (h : numeric15 (pyStr v) = true) :
    pyTruthy v = true := by
  cases v with
  | null => simp [pyStr, numeric15, pyIsdigit] at h
  | bool b => cases b <;> simp_all [pyStr, numeric15, pyIsdigit]
  | num n =>
    by_contra hn
    have h0 : n = 0 := by simpa [pyTruthy] using hn
    subst h0
    exact absurd h (by decide)
  | str s =>
    simp only [numeric15, pyIsdigit, pyStr, Bool.and_eq_true] at h
    simp only [pyTruthy]
    exact h.1.1
  | arr xs => simp [pyStr, numeric15, pyIsdigit, strChars] at h
  | obj fs => simp [pyStr, numeric15, pyIsdigit, strChars] at h

/-- The truthiness conjunct of the source's test is redundant: the
claim's qualification test and the source's coincide. -/
theorem claimSel_eq_qualifySel (kv : String × Json) : claimSel kv = qualifySel kv := by
  by_cases hk : (kv.1 == "photoId") = true
  · by_cases hn : numeric15 (pyStr kv.2) = true
    · have ht := pyTruthy_of_numeric15 kv.2 hn
      simp [claimSel, qualifySel, hk, hn, ht]
    · simp [claimSel, qualifySel, hk, hn]
  · simp [claimSel, qualifySel, hk]

/-- The source's document search is exactly: enumerate the key-value
pairs the restricted traversal visits, in document order, and keep the
qualifying stringified values. -/
theorem find_numeric_photo_ids_eq (j : Json) :
    find_numeric_photo_ids j = (jsonPairsR j).filterMap qualifySel := by
  induction j using find_numeric_photo_ids.induct with
  | case1 => simp [find_numeric_photo_ids, jsonPairsR]
  | case2 k v rest ihv ihr =>
    by_cases hk : (k == "photoId") = true
    · by_cases ht : pyTruthy v = true
      · by_cases hn : numeric15 (pyStr v) = true
        · simp [find_numeric_photo_ids, jsonPairsR, qualifySel, hk, ht, hn, ihr]
        · simp [find_numeric_photo_ids, jsonPairsR, qualifySel, hk, ht, hn, ihr]
      · by_cases hc : isContainer v = true
        · simp [find_numeric_photo_ids, jsonPairsR, qualifySel, hk, ht, hc, ihv, ihr]
        · have hv := jsonPairsR_eq_nil_of_not_container v (Bool.of_not_eq_true hc)
          simp [find_numeric_photo_ids, jsonPairsR, qualifySel, hk, ht, hc, hv, ihr]
    · by_cases hc : isContainer v = true
      · simp [find_numeric_photo_ids, jsonPairsR, qualifySel, hk, hc, ihv, ihr]
      · have hv := jsonPairsR_eq_nil_of_not_container v (Bool.of_not_eq_true hc)
        simp [find_numeric_photo_ids, jsonPairsR, qualifySel, hk, hc, hv, ihr]
  | case3 => simp [find_numeric_photo_ids, jsonPairsR]
  | case4 v rest ihv ihr =>
    by_cases hc : isContainer v = true
    · simp [find_numeric_photo_ids, jsonPairsR, hc, ihv, ihr]
    · have hv := jsonPairsR_eq_nil_of_not_container v (Bool.of_not_eq_true hc)
      simp [find_numeric_photo_ids, jsonPairsR, hc, hv, ihr]
  | case5 => simp [find_numeric_photo_ids, jsonPairsR]
  | case6 => simp [find_numeric_photo_ids, jsonPairsR]
  | case7 => simp [find_numeric_photo_ids, jsonPairsR]
  | case8 => simp [find_numeric_photo_ids, jsonPairsR]

/-- The locator loop returns the build applied to the first top-level
value passing the structural test, in insertion order, and nothing
else. -/
theorem photoCountsLoop_eq_find? (build : Json → Option α) (fields : List (String × Json)) :
    photoCountsLoop build fields =
      (fields.find? fun kv => subtreeMatch kv.2).bind fun kv => build kv.2 := by
  induction fields with
  | nil => simp [photoCountsLoop]
  | cons kv rest ih =>
    by_cases h : subtreeMatch kv.2 = true
    · cases kv
      simp [photoCountsLoop, List.find?, h]
    · cases kv
      simp only [Bool.not_eq_true] at h
      simp [photoCountsLoop, List.find?, h, ih]

/-- A successful literal match means the pattern starts the input. -/
theorem startsList_of_matchPre (pat s r : List Char) (h : matchPre pat s = some r) :
    startsList pat s = true := by
  simp [startsList, h]

/-- If the marker literal occurs nowhere in the input, the INIT_STATE
pattern matches nowhere. -/
theorem searchInitState_eq_none (s : List Char)
    (h : hasSub (strChars "window.INIT_STATE") s = false) :
    searchInitState s = none := by
  induction s with
  | nil => simp [searchInitState]
  | cons c rest ih =>
    simp only [hasSub, Bool.or_eq_false_iff] at h
    have hst : initStateAt (c :: rest) = none := by
      cases hm : matchPre (strChars "window.INIT_STATE") (c :: rest) with
      | none => simp [initStateAt, hm]
      | some r => exact absurd (startsList_of_matchPre _ _ _ hm) (by simp [h.1])
    simp [searchInitState, hst, ih h.2]

/-- Terminal row states produced by one URL-fetcher attempt: success, or
failure with the uniform reason. -/
theorem stepFromUrl_done (loads : String → Option Json) (st st2 : RecState)
    (o : AttemptOutcome) (h : stepFromUrl loads st o = .done st2) :
    st2.status = STATUS_OK ∨ (st2.status = STATUS_FAIL ∧ st2.reason = FAIL_REASON) := by
  cases o with
  | timeout => simp [stepFromUrl] at h
  | netError => simp [stepFromUrl] at h
  | httpResp code html =>
    simp only [stepFromUrl] at h
    split at h
    · injection h with h2
      subst h2
      right; exact ⟨rfl, rfl⟩
    · split at h
      · injection h with h2
        subst h2
        right; exact ⟨rfl, rfl⟩
      · split at h
        · injection h with h2
          subst h2
          right; exact ⟨rfl, rfl⟩
        · injection h with h2
          subst h2
          left; rfl

/-- Pointwise-equal selectors, as functions. -/
theorem claimSel_funext : claimSel = qualifySel := funext claimSel_eq_qualifySel

/-- With the cancellation flag up throughout and at least one attempt of
budget left, the URL-fetcher loop always ends in a terminal row state:
成功, or 失败 with the uniform reason. -/
theorem retryLoop_fromUrl_terminal (loads : String → Option Json)
    (f : Nat → AttemptOutcome) (st : RecState) (i fuel : Nat) (hfuel : 1 ≤ fuel) :
    (retryLoop (stepFromUrl loads) (fun _ => true) f st i fuel).row.status = STATUS_OK
    ∨ ((retryLoop (stepFromUrl loads) (fun _ => true) f st i fuel).row.status = STATUS_FAIL
       ∧ (retryLoop (stepFromUrl loads) (fun _ => true) f st i fuel).row.reason = FAIL_REASON) := by
  induction fuel generalizing st i with
  | zero => omega
  | succ fuel ih =>
    cases hs : stepFromUrl loads st (f i) with
    | done st2 =>
      have := stepFromUrl_done loads st st2 (f i) hs
      simpa [retryLoop, hs] using this
    | retryWith st2 =>
      by_cases hz : fuel = 0
      · subst hz
        simp [retryLoop, hs]
      · have h1 : 1 ≤ fuel := by omega
        simpa [retryLoop, hs, hz] using ih st2 (i + 1) h1

/-! ## Claim C1 -/

/-- C1, counterexample: the document c1doc contains (in document order) a
key-value pair with key photoId whose stringified value is purely numeric
with 15 digits, yet extract_numeric_photo_id recovers the empty-string
fallback instead of that value, because the search never descends below a
photoId-keyed value.  This refutes the claim as stated. -/
theorem c1_counterexample :
    (jsonPairs c1doc).filterMap claimSel = ["123456789012345"]
    ∧ extract_numeric_photo_id [] c1doc = ""
    ∧ ("" : String) ≠ "123456789012345" := by
  have hP : jsonPairs c1doc =
      [("photoId", Json.obj [("photoId", Json.str "123456789012345")]),
       ("photoId", Json.str "123456789012345")] := by
    simp [c1doc, jsonPairs]
  have hR : jsonPairsR c1doc =
      [("photoId", Json.obj [("photoId", Json.str "123456789012345")])] := by
    simp [c1doc, jsonPairsR, pyTruthy]
  have hfind : find_numeric_photo_ids c1doc = [] := by
    rw [find_numeric_photo_ids_eq, hR]; decide
  refine ⟨by rw [hP]; decide, ?_, by decide⟩
  unfold extract_numeric_photo_id
  rw [hfind]
  decide

/-- C1 (amended): the recovery searches the document depth-first in
insertion order, but without descending into the value stored under a
photoId key; if that traversal meets at least one photoId pair whose
stringified value is purely numeric with at least 15 digits, the
recovered identifier is the first such value (even when the matched
subtree's own photoId holds a different, e.g. slug, value); if it meets
none, the recovered identifier is the subtree's own photoId value
stringified when truthy, and the empty string otherwise. -/
theorem c1_first_numeric_document_order (photo : List (String × Json)) (doc : Json) :
    (∀ v rest, (jsonPairsR doc).filterMap claimSel = v :: rest →
      extract_numeric_photo_id photo doc = v)
    ∧ ((jsonPairsR doc).filterMap claimSel = [] →
      extract_numeric_photo_id photo doc =
        (if pyTruthy (pyGetD photo "photoId" (.str "")) = true
         then pyStr (pyGetD photo "photoId" (.str "")) else "")) := by
  constructor
  · intro v rest h
    rw [claimSel_funext, ← find_numeric_photo_ids_eq] at h
    simp [extract_numeric_photo_id, h]
  · intro h
    rw [claimSel_funext, ← find_numeric_photo_ids_eq] at h
    by_cases ht : pyTruthy (pyGetD photo "photoId" (.str "")) = true
    · by_cases hd : pyIsdigit (pyStr (pyGetD photo "photoId" (.str ""))) = true
      · simp [extract_numeric_photo_id, h, ht, hd]
      · simp [extract_numeric_photo_id, h, ht, hd]
    · simp [extract_numeric_photo_id, h, ht]

/-- Witness for the amended C1 theorem: on a document whose only numeric
photoId lives in a sibling subtree, the recovery returns that sibling
value and ignores the matched subtree's slug identifier. -/
theorem c1_first_numeric_document_order_witness :
    extract_numeric_photo_id [("photoId", Json.str "slugvalue")] c1docSibling
      = "999998888877777" := by
  apply (c1_first_numeric_document_order [("photoId", Json.str "slugvalue")] c1docSibling).1
    "999998888877777" []
  have hR : jsonPairsR c1docSibling =
      [("sibling", Json.obj [("photoId", Json.str "999998888877777")]),
       ("photoId", Json.str "999998888877777"),
       ("other", Json.str "x")] := by
    simp [c1docSibling, jsonPairsR, pyTruthy]
  rw [hR]; decide

/-! ## Claim C2 -/

/-- C2, counterexample: a record whose first attempt returns HTTP 404 is
terminally classified failed after exactly one attempt, with no retry and
no inter-attempt pause — refuting the claim that a non-200 status is
retried under the same policy as a timeout (up to 3 attempts). -/
theorem c2_counterexample :
    fetch_video_info_from_url (fun _ => none) (fun _ => true) (fun _ => .httpResp 404 "")
      = ⟨⟨STATUS_FAIL, FAIL_REASON, none⟩, 1, 0⟩
    ∧ (1 : Nat) ≠ 3 := ⟨rfl, by decide⟩

/-- C2 (amended): in the URL fetcher (fetch_video_info_from_url) a
non-200 response terminally fails the record on that very attempt, with
no retry and no pause; only in the ID fetcher (fetch_video_info_with_id)
does a non-200 response fall through to the retry loop, which then
exhausts 3 attempts with the two 0.5s pauses before the terminal
failure. -/
theorem c2_non200_retry_policy :
    (∀ (loads : String → Option Json) (f : Nat → AttemptOutcome) (code : Nat) (html : String),
      code ≠ 200 → f 0 = .httpResp code html →
      fetch_video_info_from_url loads (fun _ => true) f
        = ⟨⟨STATUS_FAIL, FAIL_REASON, none⟩, 1, 0⟩)
    ∧ (∀ (loads : String → Option Json) (f : Nat → AttemptOutcome),
      (∀ i, i < 3 → ∃ code html, code ≠ 200 ∧ f i = .httpResp code html) →
      fetch_video_info_with_id loads (fun _ => true) f
        = ⟨⟨STATUS_FAIL, FAIL_REASON, none⟩, 3, 2⟩) := by
  constructor
  · intro loads f code html hc hf
    simp [fetch_video_info_from_url, retryLoop, hf, stepFromUrl, hc]
  · intro loads f h
    obtain ⟨c0, h0, hc0, hf0⟩ := h 0 (by omega)
    obtain ⟨c1, h1, hc1, hf1⟩ := h 1 (by omega)
    obtain ⟨c2, h2, hc2, hf2⟩ := h 2 (by omega)
    simp [fetch_video_info_with_id, retryLoop, hf0, hf1, hf2, stepWithId, hc0, hc1, hc2]

/-- Witness for the amended C2 theorem at concrete inputs: HTTP 500 on
the URL fetcher (one attempt, no retry) and constant HTTP 403 on the ID
fetcher (three attempts, two pauses). -/
theorem c2_non200_retry_policy_witness :
    fetch_video_info_from_url (fun _ => none) (fun _ => true) (fun _ => .httpResp 500 "x")
      = ⟨⟨STATUS_FAIL, FAIL_REASON, none⟩, 1, 0⟩
    ∧ fetch_video_info_with_id (fun _ => none) (fun _ => true) (fun _ => .httpResp 403 "y")
      = ⟨⟨STATUS_FAIL, FAIL_REASON, none⟩, 3, 2⟩ :=
  ⟨c2_non200_retry_policy.1 (fun _ => none) (fun _ => .httpResp 500 "x") 500 "x"
      (by decide) rfl,
   c2_non200_retry_policy.2 (fun _ => none) (fun _ => .httpResp 403 "y")
      (fun _ _ => ⟨403, "y", by decide, rfl⟩)⟩

/-! ## Claim C3 -/

/-- C3: with cancellation never raised, every record processed by the
URL fetcher ends in a terminal row state — 解析状态 = 成功, or 解析状态 =
失败 together with the single uniform reason 找不到视频，已被删除或下架 —
for every stream of attempt outcomes (HTTP error status, timeout,
transport exception) and every parse behavior (missing INIT_STATE marker,
JSON parse failure, absent photo/counts subtree).  The model function is
total, reflecting that the source catches every failure inside the
per-record task and no exception reaches the orchestrator. -/
theorem c3_uniform_terminal_failure (loads : String → Option Json) (f : Nat → AttemptOutcome) :
    (fetch_video_info_from_url loads (fun _ => true) f).row.status = STATUS_OK
    ∨ ((fetch_video_info_from_url loads (fun _ => true) f).row.status = STATUS_FAIL
       ∧ (fetch_video_info_from_url loads (fun _ => true) f).row.reason = FAIL_REASON) :=
  retryLoop_fromUrl_terminal loads f ⟨STATUS_PENDING, "", none⟩ 0 3 (by omega)

/-! ## Claim C4 -/

/-- C4: when every attempt times out, the URL fetcher makes exactly 3
attempts, sleeps the fixed 0.5s pause exactly twice between consecutive
attempts (total inter-attempt delay 2 x 500ms), and terminally marks the
record failed. -/
theorem c4_timeout_retry_budget (loads : String → Option Json) (f : Nat → AttemptOutcome)
    (h : ∀ i, i < 3 → f i = .timeout) :
    fetch_video_info_from_url loads (fun _ => true) f
      = ⟨⟨STATUS_FAIL, FAIL_REASON, none⟩, 3, 2⟩
    ∧ (fetch_video_info_from_url loads (fun _ => true) f).sleeps * RETRY_PAUSE_MS
      = 2 * RETRY_PAUSE_MS := by
  have h0 := h 0 (by omega)
  have h1 := h 1 (by omega)
  have h2 := h 2 (by omega)
  have hrun : fetch_video_info_from_url loads (fun _ => true) f
      = ⟨⟨STATUS_FAIL, FAIL_REASON, none⟩, 3, 2⟩ := by
    simp [fetch_video_info_from_url, retryLoop, h0, h1, h2, stepFromUrl]
  exact ⟨hrun, by rw [hrun]⟩

/-- Witness for C4 at the always-timeout outcome stream. -/
theorem c4_timeout_retry_budget_witness :
    fetch_video_info_from_url (fun _ => none) (fun _ => true) (fun _ => .timeout)
      = ⟨⟨STATUS_FAIL, FAIL_REASON, none⟩, 3, 2⟩ :=
  (c4_timeout_retry_budget (fun _ => none) (fun _ => .timeout) (fun _ _ => rfl)).1

/-! ## Claim C5 -/

/-- C5: both subtree locators scan only the top-level key/value pairs of
the parsed object, in insertion order, and produce the payload built from
the first value that is itself a dict containing both a photo and a
counts key (None when no top-level value matches, and None when the
build step fails on the committed first match). -/
theorem c5_subtree_locator (fields : List (String × Json)) :
    gui_extract_video_info (.obj fields)
      = ((fields.find? fun kv => subtreeMatch kv.2).bind fun kv => buildInfoGui kv.2)
    ∧ extract_video_info (.obj fields)
      = ((fields.find? fun kv => subtreeMatch kv.2).bind fun kv =>
          buildInfoParse (.obj fields) kv.2) :=
  ⟨photoCountsLoop_eq_find? buildInfoGui fields,
   photoCountsLoop_eq_find? (buildInfoParse (.obj fields)) fields⟩

/-! ## Claim C6 -/

/-- C6: the embedded-JSON extractor is total — for every input string it
returns either a parsed value or None, never letting an error escape.  In
particular it returns None whenever the window.INIT_STATE marker is
absent, and None whenever the delimited text fails to parse (the loads
parameter returning None models both a parse failure and a raised parse
exception); and any parsed value it returns came from the located
delimited text. -/
theorem c6_extractor_null_on_malformed (loads : String → Option Json) (html : String) :
    (hasSub (strChars "window.INIT_STATE") (strChars html) = false →
      extract_json_from_html loads html = none)
    ∧ (∀ g, searchInitState (strChars html) = some g → loads g = none →
      extract_json_from_html loads html = none)
    ∧ (∀ j, extract_json_from_html loads html = some j →
      ∃ g, searchInitState (strChars html) = some g ∧ loads g = some j) := by
  refine ⟨?_, ?_, ?_⟩
  · intro h
    simp [extract_json_from_html, searchInitState_eq_none (strChars html) h]
  · intro g hg hl
    simp [extract_json_from_html, hg, hl]
  · intro j hj
    unfold extract_json_from_html at hj
    cases hs : searchInitState (strChars html) with
    | none => rw [hs] at hj; cases hj
    | some g => rw [hs] at hj; exact ⟨g, rfl, hj⟩

/-- Witness for C6: a marker-free body yields None, and a body whose
delimited text the parser rejects also yields None. -/
theorem c6_extractor_null_on_malformed_witness :
    extract_json_from_html (fun _ => none) "plain page without the marker" = none
    ∧ extract_json_from_html (fun _ => none) "window.INIT_STATE = \x7b\x7d</script>" = none :=
  ⟨(c6_extractor_null_on_malformed (fun _ => none) "plain page without the marker").1
      (by decide),
   (c6_extractor_null_on_malformed (fun _ => none)
      "window.INIT_STATE = \x7b\x7d</script>").2.1 "\x7b\x7d" (by decide) rfl⟩

/-! ## Claim C7 -/

/-- C7, counterexample: at this resolved URL the claim's stated priority
(slug-form photoId, else canonical path pattern, else numeric
shareObjectId, else fail) predicts 555, but the source consults the
purely numeric photoId parameter before shareObjectId and returns
123456789012345.  This refutes the claim's priority order as stated. -/
theorem c7_counterexample :
    claimResolvePriority c7url = some "555"
    ∧ extract_single_video_id_final c7url = some "123456789012345"
    ∧ (some "555" : Option String) ≠ some "123456789012345" :=
  ⟨by decide, by decide, by decide⟩

/-- C7 (amended): from the final resolved URL the source selects, in
order: (1) the photoId parameter when not purely numeric and longer than
5 characters; (2) a non-numeric identifier after /photo/; (3) the
identifier after /short-video/; (4) the photoId parameter when purely
numeric; (5) the shareObjectId parameter when purely numeric; otherwise
resolution fails with no partial identifier. -/
theorem c7_resolver_priority (u : String) :
    (∀ v, resolveStepSlugParam u = some v → extract_single_video_id_final u = some v)
    ∧ (resolveStepSlugParam u = none → ∀ v, resolveStepPhotoPath u = some v →
        extract_single_video_id_final u = some v)
    ∧ (resolveStepSlugParam u = none → resolveStepPhotoPath u = none →
        ∀ v, resolveStepShortVideo u = some v → extract_single_video_id_final u = some v)
    ∧ (resolveStepSlugParam u = none → resolveStepPhotoPath u = none →
        resolveStepShortVideo u = none → ∀ v, resolveStepNumericParam u = some v →
        extract_single_video_id_final u = some v)
    ∧ (resolveStepSlugParam u = none → resolveStepPhotoPath u = none →
        resolveStepShortVideo u = none → resolveStepNumericParam u = none →
        extract_single_video_id_final u = resolveStepShareObject u) := by
  refine ⟨?_, ?_, ?_, ?_, ?_⟩ <;> intros <;> simp_all [extract_single_video_id_final]

/-- Witness for the amended C7 theorem: on the counterexample URL, steps
1-3 fail and step 4 returns the numeric photoId. -/
theorem c7_resolver_priority_witness :
    extract_single_video_id_final c7url = some "123456789012345" :=
  (c7_resolver_priority c7url).2.2.2.1 (by decide) (by decide) (by decide)
    "123456789012345" (by decide)

/-! ## Claim C8 -/

/-- C8: a URL containing the canonical marker
www.kuaishou.com/short-video/ takes the fast path: the result is the slug
captured by the first /short-video/ pattern match, computed with no
network interaction (the result is identical under every redirect
resolver), and the fast path yields nothing only when the pattern
captures nothing. -/
theorem c8_fast_path (net net2 : String → Option String) (url : String)
    (h : hasSub (strChars "www.kuaishou.com/short-video/") (strChars (pyStripStr url)) = true) :
    extract_video_id net url = searchSlug (strChars "/short-video/") (strChars (pyStripStr url))
    ∧ extract_video_id net url = extract_video_id net2 url := by
  have hne : ¬(url = "") := by
    intro he
    subst he
    exact absurd h (by decide)
  constructor
  · simp [extract_video_id, hne, h]
  · simp [extract_video_id, hne, h]

/-- Witness for C8 at the documented example URL: the fast path yields
abc123 under an arbitrary (never-consulted) redirect resolver. -/
theorem c8_fast_path_witness :
    extract_video_id (fun _ => none) "https://www.kuaishou.com/short-video/abc123"
      = some "abc123" := by
  have h := (c8_fast_path (fun _ => none) (fun _ => some "ignored")
      "https://www.kuaishou.com/short-video/abc123" (by decide)).1
  rw [h]
  decide

/-! ## Claim C9 -/

/-- C9, counterexample: a record whose task observes the cancellation
flag before its fetch begins returns with its row still 待处理 — neither
成功 nor 失败 — refuting the claim that after cancellation no record is
left in the pending state. -/
theorem c9_counterexample :
    process_single_url_async (fun _ => none) (fun _ => false) (fun _ => .timeout)
      = ⟨⟨STATUS_PENDING, "", none⟩, 0, 0⟩
    ∧ STATUS_PENDING ≠ STATUS_OK
    ∧ STATUS_PENDING ≠ STATUS_FAIL :=
  ⟨rfl, by decide, by decide⟩

/-- C9 (amended): once cancellation is raised, a record task that
observes the down flag before its first attempt starts no pipeline work
at all — zero attempts and zero pauses, so no new record pipeline starts —
but its row is left in the 待处理 (pending) state rather than being moved
to a terminal success or failure status. -/
theorem c9_cancellation_leaves_pending (loads : String → Option Json)
    (running : Nat → Bool) (f : Nat → AttemptOutcome) (h : running 0 = false) :
    process_single_url_async loads running f = ⟨⟨STATUS_PENDING, "", none⟩, 0, 0⟩ := by
  simp [process_single_url_async, fetch_video_info_from_url, retryLoop, h]

/-- Witness for the amended C9 theorem with the flag constantly down. -/
theorem c9_cancellation_leaves_pending_witness :
    process_single_url_async (fun _ => none) (fun _ => false) (fun _ => .netError)
      = ⟨⟨STATUS_PENDING, "", none⟩, 0, 0⟩ :=
  c9_cancellation_leaves_pending (fun _ => none) (fun _ => false) (fun _ => .netError) rfl

/-! ## Claim C10 -/

/-- C10: on the success path of either fetcher, the stored 作品ID is the
first raw-HTML regex match for a quoted photoId value of 15 or more
digits whenever at least one exists — overriding the mapper's record —
and only when the HTML regex finds no match is the mapper's own
(stringified) 作品ID entry kept (the GUI mapper writes no such entry, so
that fallback reads the empty-string default). -/
theorem c10_html_regex_overrides_mapper (loads : String → Option Json)
    (f : Nat → AttemptOutcome) (html : String) (data : Json) (info : List (String × Json))
    (hf : f 0 = .httpResp 200 html)
    (hj : extract_json_from_html loads html = some data)
    (hi : gui_extract_video_info data = some info) :
    ((fetch_video_info_from_url loads (fun _ => true) f).row.workId
        = some (recordPhotoId html info)
      ∧ (fetch_video_info_with_id loads (fun _ => true) f).row.workId
        = some (recordPhotoId html info))
    ∧ (∀ m rest, reFindallNumericPhotoId html = m :: rest → recordPhotoId html info = m)
    ∧ (reFindallNumericPhotoId html = [] →
        recordPhotoId html info = pyStr (pyGetD info "作品ID" (.str ""))) := by
  refine ⟨⟨?_, ?_⟩, ?_, ?_⟩
  · simp [fetch_video_info_from_url, retryLoop, hf, stepFromUrl, hj, hi]
  · simp [fetch_video_info_with_id, retryLoop, hf, stepWithId, hj, hi]
  · intro m rest hm
    simp [recordPhotoId, hm]
  · intro hm
    simp [recordPhotoId, hm]

/-- Witness for C10: at these concrete inputs the recorded 作品ID is the
raw-HTML regex match, not anything from the parsed JSON (which contains
no photoId at all). -/
theorem c10_html_regex_overrides_mapper_witness :
    (fetch_video_info_from_url (fun _ => some c10data) (fun _ => true)
        (fun _ => .httpResp 200 c10html)).row.workId = some "111112222233333" := by
  have h := c10_html_regex_overrides_mapper (fun _ => some c10data)
      (fun _ => .httpResp 200 c10html) c10html c10data (guiInfoFields [] [])
      rfl rfl rfl
  rw [h.1.1]
  decide
